import Mathlib

/-
Shallow embedding of the xwayland surface bridging layer
(src/xwayland/surface.rs): the liveliness-token / handle machinery,
the owned Surface wrapper, and the Shell listener dispatch table.

Raw pointers are modelled as natural numbers.  The Rc<Cell<bool>>
liveliness token is modelled as a token id together with a strong
count in the world state: a Weak upgrade succeeds exactly when the
strong count is positive (the Cell's boolean value is initialised to
false by Surface::new and never written nor read afterwards, so it is
carried separately and untouched).  Freed memory is modelled by
removing the entry from the corresponding map.
-/

namespace Wlr

/-- Pointwise update of a total map over Nat. -/
def upd {α : Type} (f : Nat → α) (k : Nat) (v : α) : Nat → α :=
  fun q => if q = k then v else f q

@[simp]
theorem upd_self {α : Type} (f : Nat → α) (k : Nat) (v : α) : upd f k v k = v := by
  simp [upd]

@[simp]
theorem upd_other {α : Type} (f : Nat → α) (k q : Nat) (v : α) (h : q ≠ k) :
    upd f k v q = f q := by
  simp [upd, h]

/-- Error returned by handle upgrades (utils::HandleErr in the source). -/
inductive HandleErr where
  | AlreadyDropped
deriving DecidableEq, Repr

/-- Programmer-defect outcomes of the registration protocol (spec section 7).
UnregisteredNative models the null-state dereference / failed unwrap that
Surface::from_ptr performs when the user-data slot holds no state block;
DeadLineage models the unwrap panic when the stored weak token is dead. -/
inductive Defect where
  | UnregisteredNative
  | DeadLineage
deriving DecidableEq, Repr

/-- The per-native-object state block (struct State in the source):
a raw pointer to the Shell dispatch table and the weak form of the
liveliness token. -/
structure StateBlock where
  shell : Option Nat
  handle : Nat
deriving DecidableEq, Repr

/-- The fields of the native wlr_xwayland_surface object that the core
reads or writes: the opaque user-data slot (data) and the pointer to the
associated wayland surface (null while unmapped). -/
structure NativeSurface where
  data : Option StateBlock
  surface : Option Nat
deriving DecidableEq, Repr

/-- The owned resource wrapper (struct Surface in the source): a strong
liveliness token reference plus the native pointer. -/
structure Surface where
  liveliness : Nat
  shell_surface : Nat
deriving DecidableEq, Repr

/-- A weak handle (utils::Handle): the native pointer value plus the weak
form of the liveliness token. -/
structure HandleV where
  ptr : Nat
  handle : Nat
deriving DecidableEq, Repr

/-- A handler attached to a Shell.  Handler methods default to no-ops and
are observed through the emitted call log; the one piece of data the
dispatch code consumes is on_map's return value, an optional secondary
handler to hand to the mapped wayland surface. -/
structure Handler where
  mapResult : Option Nat
deriving DecidableEq, Repr

/-- The Shell dispatch table payload: this.data = (Surface, Option Handler). -/
structure Shell where
  surface : Surface
  handler : Option Handler
deriving DecidableEq, Repr

/-- The event kinds for which the wayland_listener invocation in the source
declares one registration record each. -/
inductive EventKind where
  | destroy
  | requestConfigure
  | requestMove
  | requestResize
  | requestMaximize
  | requestFullscreen
  | map
  | unmap
  | setTitle
  | setClass
  | setParent
  | setPid
  | setWindowType
  | pingTimeout
deriving DecidableEq, Repr

/-- The fourteen listener records the wayland_listener invocation registers,
in source order; impl Drop for Shell removes exactly these fourteen. -/
def allListeners : List EventKind :=
  [.destroy, .requestConfigure, .requestMove, .requestResize,
   .requestMaximize, .requestFullscreen, .map, .unmap, .setTitle,
   .setClass, .setParent, .setPid, .setWindowType, .pingTimeout]

/-- The whole single-threaded world the core manipulates: the native
objects, the liveliness tokens (strong counts and cell values), the
allocated Shell boxes, the per-native-object listener registration lists,
and the handler slots of the related wayland surfaces. -/
structure World where
  natives : Nat → Option NativeSurface
  tokens : Nat → Nat
  tokenVal : Nat → Bool
  nextToken : Nat
  shells : Nat → Option Shell
  nextShell : Nat
  regs : Nat → List EventKind
  surfaceHandlers : Nat → Option Nat

/-- Modelled from the spec: the decoded resize event payload
(xwayland::event::Resize, defined outside the files at hand) carries the
requested width and height. -/
structure ResizeEvent where
  width : Nat
  height : Nat
deriving DecidableEq, Repr

/-- Modelled from the spec: decoding the opaque resize payload into the
fixed (width, height) field set. -/
def ResizeEvent.fromPayload (p : Nat × Nat) : ResizeEvent :=
  { width := p.1, height := p.2 }

/-- One observed handler-interface invocation.  comp is the compositor
context, the Option Nat is the associated wayland surface pointer (absent
while unmapped), and the HandleV is the weak reference the dispatch code
passes in place of the owned wrapper. -/
inductive HandlerCall where
  | destroyed (comp : Nat) (surf : Option Nat) (h : HandleV)
  | onConfigure (comp : Nat) (surf : Option Nat) (h : HandleV) (payload : Nat)
  | onMove (comp : Nat) (surf : Option Nat) (h : HandleV) (payload : Nat)
  | onResize (comp : Nat) (surf : Option Nat) (h : HandleV) (ev : ResizeEvent)
  | onMaximize (comp : Nat) (surf : Option Nat) (h : HandleV)
  | onFullscreen (comp : Nat) (surf : Option Nat) (h : HandleV)
  | onMap (comp : Nat) (surf : Option Nat) (h : HandleV)
  | onUnmap (comp : Nat) (surf : Option Nat) (h : HandleV)
  | titleSet (comp : Nat) (surf : Option Nat) (h : HandleV)
  | classSet (comp : Nat) (surf : Option Nat) (h : HandleV)
  | parentSet (comp : Nat) (surf : Option Nat) (h : HandleV)
  | pidSet (comp : Nat) (surf : Option Nat) (h : HandleV)
  | windowTypeSet (comp : Nat) (surf : Option Nat) (h : HandleV)
  | pingTimeout (comp : Nat) (surf : Option Nat) (h : HandleV)
deriving DecidableEq, Repr

/-- The native notification fired at the dispatch table, with the payload
the native library passes (destroy carries the surface pointer as its data
argument; resize carries the requested width and height). -/
inductive EventIn where
  | destroy (dataPtr : Nat)
  | requestConfigure (payload : Nat)
  | requestMove (payload : Nat)
  | requestResize (payload : Nat × Nat)
  | requestMaximize
  | requestFullscreen
  | mapE
  | unmap
  | setTitle
  | setClass
  | setParent
  | setPid
  | setWindowType
  | pingTimeout
deriving DecidableEq, Repr

/-- Surface::new: null the user-data slot, allocate a fresh liveliness
token (Cell initialised to false) and a state block with a null shell
pointer and the token's weak form, store the state block in the slot, and
return the wrapper.  The slot is written unconditionally: no check that it
was empty is performed. -/
def Surface.new (w : World) (p : Nat) : World × Surface :=
  let t := w.nextToken
  let st : StateBlock := { shell := none, handle := t }
  let w1 : World :=
    { w with
      natives := fun q =>
        if q = p then (w.natives p).map (fun ns => { ns with data := some st })
        else w.natives q,
      tokens := upd w.tokens t 1,
      tokenVal := upd w.tokenVal t false,
      nextToken := w.nextToken + 1 }
  (w1, { liveliness := t, shell_surface := p })

/-- impl Drop for Surface, together with the implicit drop of the strong
Rc field: if more than one strong holder remains this is an early return
(only the Rc count decreases); otherwise the state block boxed in the
native object's user-data slot is released, and the count drops to zero. -/
def dropSurfaceVal (w : World) (s : Surface) : World :=
  if w.tokens s.liveliness > 1 then
    { w with tokens := upd w.tokens s.liveliness (w.tokens s.liveliness - 1) }
  else
    { w with
      natives := fun q =>
        if q = s.shell_surface then (w.natives q).map (fun ns => { ns with data := none })
        else w.natives q,
      tokens := upd w.tokens s.liveliness (w.tokens s.liveliness - 1) }

/-- Handleable::from_ptr: read the state block from the user-data slot and
upgrade its weak token.  A missing native object or an empty slot is the
null-state dereference (the UnregisteredNative defect of spec section 7);
a dead stored weak is the unwrap panic (DeadLineage).  On success the
strong count rises by one and the recovered wrapper shares the stored
lineage. -/
def Surface.fromPtr (w : World) (p : Nat) : World × Except Defect Surface :=
  match w.natives p with
  | none => (w, .error .UnregisteredNative)
  | some ns =>
    match ns.data with
    | none => (w, .error .UnregisteredNative)
    | some st =>
      if w.tokens st.handle > 0 then
        ({ w with tokens := upd w.tokens st.handle (w.tokens st.handle + 1) },
         .ok { liveliness := st.handle, shell_surface := p })
      else (w, .error .DeadLineage)

/-- Handleable::from_handle: upgrade the handle's weak token, returning
AlreadyDropped (with no state change) when it is dead. -/
def Surface.fromHandle (w : World) (h : HandleV) : World × Except HandleErr Surface :=
  if w.tokens h.handle > 0 then
    ({ w with tokens := upd w.tokens h.handle (w.tokens h.handle + 1) },
     .ok { liveliness := h.handle, shell_surface := h.ptr })
  else (w, .error .AlreadyDropped)

/-- Handleable::weak_reference: a handle carrying the native pointer value
and the weak form of this wrapper's liveliness token. -/
def Surface.weakReference (s : Surface) : HandleV :=
  { ptr := s.shell_surface, handle := s.liveliness }

/-- Modelled from the spec: Handle::upgrade_and_run (utils::Handle::run is
outside the files at hand): if the token is dead, return AlreadyDropped
without invoking the body and with no side effect; if alive, build a
transient owned wrapper, run the body, and discard the transient wrapper
on return via the Drop-for-Surface path so it does not extend the
wrapper's lifetime. -/
def HandleV.upgradeAndRun {α : Type} (w : World) (h : HandleV) (f : Surface → α) :
    World × Except HandleErr α :=
  match Surface.fromHandle w h with
  | (w1, .ok s) => (dropSurfaceVal w1 s, .ok (f s))
  | (w1, .error e) => (w1, .error e)

/-- Surface::surface(): the associated wayland surface pointer, absent
while the native surface field is null. -/
def surfaceOf (w : World) (s : Surface) : Option Nat :=
  (w.natives s.shell_surface).bind (fun ns => ns.surface)

/-- Remove one registration record per listed kind (one wl_list_remove
call each) from a native object's notification list. -/
def removeListeners (l : List EventKind) (ks : List EventKind) : List EventKind :=
  ks.foldl (fun acc k => acc.erase k) l

/-- impl Drop for Shell followed by the drop of its fields: remove every
one of the fourteen listener records from the native object's notification
lists, free the Shell box, and drop the contained Surface (which releases
the state block when it is the last strong holder). -/
def dropShellBox (w : World) (shid : Nat) : World :=
  match w.shells shid with
  | none => w
  | some sh =>
    let p := sh.surface.shell_surface
    let w1 := { w with regs := upd w.regs p (removeListeners (w.regs p) allListeners) }
    let w2 := dropSurfaceVal w1 sh.surface
    { w2 with shells := upd w2.shells shid none }

/-- Modelled from the spec: Shell construction (the boilerplate generated
by the wayland_listener invocation together with the wl_signal_add calls,
outside the files at hand) boxes the dispatch table holding the Surface
and the optional handler, splices one record per event kind into the
native object's notification lists, and links the state block's shell
pointer to the new table. -/
def Shell.create (w : World) (s : Surface) (h : Option Handler) : World × Nat :=
  let sid := w.nextShell
  let p := s.shell_surface
  let w1 : World :=
    { w with
      shells := upd w.shells sid (some { surface := s, handler := h }),
      nextShell := w.nextShell + 1,
      regs := upd w.regs p (w.regs p ++ allListeners),
      natives := fun q =>
        if q = p then
          (w.natives p).map (fun ns =>
            { ns with data := ns.data.map (fun st => { st with shell := some sid }) })
        else w.natives q }
  (w1, sid)

/-- The listener closures of the wayland_listener invocation, one branch
per event kind.  Every closure first checks this.data's handler slot and
returns without action when it is None, then resolves the compositor
context, reads the associated wayland surface, and invokes the matching
handler method with a weak reference.  The destroy closure additionally
frees, after the handler call, the Shell box named by the state block
stored in its data pointer's user-data slot; the map closure attaches the
handler returned by on_map to the mapped wayland surface's handler slot. -/
def Shell.notify (w : World) (sid : Nat) (comp : Option Nat) (e : EventIn) :
    World × List HandlerCall :=
  match w.shells sid with
  | none => (w, [])
  | some sh =>
    match sh.handler with
    | none => (w, [])
    | some mgr =>
      match comp with
      | none => (w, [])
      | some c =>
        let surf := surfaceOf w sh.surface
        let h := Surface.weakReference sh.surface
        match e with
        | .destroy dataPtr =>
          let calls := [HandlerCall.destroyed c surf h]
          match (w.natives dataPtr).bind (fun ns => ns.data) with
          | none => (w, calls)
          | some st =>
            match st.shell with
            | none => (w, calls)
            | some shid => (dropShellBox w shid, calls)
        | .requestConfigure payload => (w, [HandlerCall.onConfigure c surf h payload])
        | .requestMove payload => (w, [HandlerCall.onMove c surf h payload])
        | .requestResize payload =>
          (w, [HandlerCall.onResize c surf h (ResizeEvent.fromPayload payload)])
        | .requestMaximize => (w, [HandlerCall.onMaximize c surf h])
        | .requestFullscreen => (w, [HandlerCall.onFullscreen c surf h])
        | .mapE =>
          let calls := [HandlerCall.onMap c surf h]
          match mgr.mapResult with
          | none => (w, calls)
          | some hid =>
            match (w.natives sh.surface.shell_surface).bind (fun ns => ns.surface) with
            | none => (w, calls)
            | some sfc =>
              ({ w with surfaceHandlers := upd w.surfaceHandlers sfc (some hid) }, calls)
        | .unmap => (w, [HandlerCall.onUnmap c surf h])
        | .setTitle => (w, [HandlerCall.titleSet c surf h])
        | .setClass => (w, [HandlerCall.classSet c surf h])
        | .setParent => (w, [HandlerCall.parentSet c surf h])
        | .setPid => (w, [HandlerCall.pidSet c surf h])
        | .setWindowType => (w, [HandlerCall.windowTypeSet c surf h])
        | .pingTimeout => (w, [HandlerCall.pingTimeout c surf h])

/-- A world with no allocations at all. -/
def emptyWorld : World where
  natives := fun _ => none
  tokens := fun _ => 0
  tokenVal := fun _ => false
  nextToken := 0
  shells := fun _ => none
  nextShell := 0
  regs := fun _ => []
  surfaceHandlers := fun _ => none

/-- A world holding one freshly allocated native surface at pointer 0,
already associated with wayland surface 5, not yet wrapped. -/
def w0 : World :=
  { emptyWorld with
    natives := fun q => if q = 0 then some { data := none, surface := some 5 } else none }

/-- The world after wrapping native pointer 0. -/
def wNew : World := (Surface.new w0 0).1

/-- The owned wrapper produced by wrapping native pointer 0. -/
def s0 : Surface := (Surface.new w0 0).2

/-- The world after additionally building the dispatch table with a
handler attached (shell id 0). -/
def wA : World := (Shell.create wNew s0 (some { mapResult := none })).1

/-- The world after building the dispatch table with no handler attached
(shell id 0). -/
def wB : World := (Shell.create wNew s0 none).1

theorem dropSurfaceVal_regs (w : World) (s : Surface) :
    (dropSurfaceVal w s).regs = w.regs := by
  unfold dropSurfaceVal; split <;> rfl

theorem dropSurfaceVal_shells (w : World) (s : Surface) :
    (dropSurfaceVal w s).shells = w.shells := by
  unfold dropSurfaceVal; split <;> rfl

theorem dropSurfaceVal_tokens_self (w : World) (s : Surface) :
    (dropSurfaceVal w s).tokens s.liveliness = w.tokens s.liveliness - 1 := by
  unfold dropSurfaceVal; split <;> simp [upd]

theorem removeListeners_all : removeListeners allListeners allListeners = [] := by
  decide

theorem notify_shell_absent (w : World) (sid : Nat) (comp : Option Nat) (e : EventIn)
    (h : w.shells sid = none) : Shell.notify w sid comp e = (w, []) := by
  simp [Shell.notify, h]

/-- C5: from_ptr (the from_existing conversion) on a native pointer whose
user-data slot holds no state block hits the UnregisteredNative programmer
defect, and the world is returned unchanged: no state mutation occurs. -/
theorem c5_from_ptr_unregistered_defect (w : World) (p : Nat)
    (hempty : (w.natives p).bind (fun ns => ns.data) = none) :
    Surface.fromPtr w p = (w, .error .UnregisteredNative) := by
  cases hn : w.natives p with
  | none => simp [Surface.fromPtr, hn]
  | some ns =>
    have hd : ns.data = none := by simpa [hn] using hempty
    simp [Surface.fromPtr, hn, hd]

/-- C5 witness: at pointer 3 of the empty world the slot is absent and
from_ptr reports the defect without mutating anything. -/
theorem c5_witness :
    (emptyWorld.natives 3).bind (fun ns => ns.data) = none ∧
    Surface.fromPtr emptyWorld 3 = (emptyWorld, .error .UnregisteredNative) :=
  ⟨rfl, c5_from_ptr_unregistered_defect emptyWorld 3 rfl⟩

/-- C7: for every event kind, a dispatch that fires while the handler slot
of the table is absent returns without any action: the world is unchanged
and no handler method is invoked. -/
theorem c7_no_handler_no_action (w : World) (sid : Nat) (sh : Shell)
    (comp : Option Nat) (e : EventIn)
    (hsh : w.shells sid = some sh) (hh : sh.handler = none) :
    Shell.notify w sid comp e = (w, []) := by
  simp [Shell.notify, hsh, hh]

/-- C7 witness: a resize notification fired at a table with no handler
attached is silently dropped. -/
theorem c7_witness :
    wB.shells 0 = some { surface := { liveliness := 0, shell_surface := 0 },
                         handler := none } ∧
    Shell.notify wB 0 (some 9) (.requestResize (3, 4)) = (wB, []) :=
  ⟨by decide,
   c7_no_handler_no_action wB 0
     { surface := { liveliness := 0, shell_surface := 0 }, handler := none }
     (some 9) (.requestResize (3, 4)) (by decide) rfl⟩

/-- C9: with a handler attached, a native resize notification carrying a
requested width and height invokes exactly on_resize, passing the decoded
event with those fields together with the resource's weak handle; the
world is unchanged. -/
theorem c9_resize_dispatch (w : World) (sid : Nat) (sh : Shell) (mgr : Handler)
    (c wd hg : Nat) (hsh : w.shells sid = some sh) (hm : sh.handler = some mgr) :
    Shell.notify w sid (some c) (.requestResize (wd, hg)) =
      (w, [HandlerCall.onResize c (surfaceOf w sh.surface)
             (Surface.weakReference sh.surface) { width := wd, height := hg }]) := by
  simp [Shell.notify, hsh, hm, ResizeEvent.fromPayload]

/-- C9 witness: resize with width 800 and height 600 on the wrapped
resource with a handler attached yields exactly the on_resize call with
width 800, height 600, and the resource's handle. -/
theorem c9_witness :
    wA.shells 0 = some { surface := { liveliness := 0, shell_surface := 0 },
                         handler := some { mapResult := none } } ∧
    Shell.notify wA 0 (some 7) (.requestResize (800, 600)) =
      (wA, [HandlerCall.onResize 7 (some 5) { ptr := 0, handle := 0 }
              { width := 800, height := 600 }]) :=
  ⟨by decide,
   c9_resize_dispatch wA 0
     { surface := { liveliness := 0, shell_surface := 0 },
       handler := some { mapResult := none } }
     { mapResult := none } 7 800 600 (by decide) rfl⟩

/-- C3: recovering a wrapper from an already-registered pointer via
from_ptr yields the same native pointer and the very liveliness token the
original wrap allocated, the recovered wrapper's weak_reference coincides
with the original wrap's, and a second recovery yields the same lineage
again — never a second, independent lineage. -/
theorem c3_from_ptr_recovers_same_lineage (w : World) (p : Nat) (n : NativeSurface)
    (hn : w.natives p = some n) :
    (Surface.fromPtr (Surface.new w p).1 p).2 =
      .ok { liveliness := (Surface.new w p).2.liveliness, shell_surface := p } ∧
    Surface.weakReference { liveliness := (Surface.new w p).2.liveliness,
                            shell_surface := p } =
      Surface.weakReference (Surface.new w p).2 ∧
    (Surface.fromPtr (Surface.fromPtr (Surface.new w p).1 p).1 p).2 =
      .ok { liveliness := (Surface.new w p).2.liveliness, shell_surface := p } := by
  refine ⟨?_, rfl, ?_⟩ <;>
    simp [Surface.new, Surface.fromPtr, hn, upd]

/-- C3 witness: recovering pointer 0 after wrapping it yields the original
token 0 lineage both times. -/
theorem c3_witness :
    w0.natives 0 = some { data := none, surface := some 5 } ∧
    (Surface.fromPtr (Surface.new w0 0).1 0).2 =
      .ok { liveliness := (Surface.new w0 0).2.liveliness, shell_surface := 0 } ∧
    Surface.weakReference { liveliness := (Surface.new w0 0).2.liveliness,
                            shell_surface := 0 } =
      Surface.weakReference (Surface.new w0 0).2 ∧
    (Surface.fromPtr (Surface.fromPtr (Surface.new w0 0).1 0).1 0).2 =
      .ok { liveliness := (Surface.new w0 0).2.liveliness, shell_surface := 0 } :=
  ⟨by decide,
   c3_from_ptr_recovers_same_lineage w0 0 { data := none, surface := some 5 } (by decide)⟩

/-- A world whose single wrapped native surface has two strong holders of
its liveliness token. -/
def wTok2 : World :=
  { emptyWorld with
    natives := fun q =>
      if q = 0 then some { data := some { shell := none, handle := 0 }, surface := none }
      else none,
    tokens := fun q => if q = 0 then 2 else 0,
    nextToken := 1 }

/-- C10: dropping an owned wrapper that is not the last strong holder is a
complete no-op apart from the strong count: the native objects (user-data
slot and state block), the token cells, the shells, the registrations and
the surface handler slots are all unchanged and the token stays alive;
when the last remaining strong holder is dropped, the state block is
released from the slot and the token goes dead. -/
theorem c10_drop_not_last_noop_last_frees (w v : World) (s : Surface)
    (hw : 1 < w.tokens s.liveliness) (hv : v.tokens s.liveliness = 1) :
    (dropSurfaceVal w s).natives = w.natives ∧
    (dropSurfaceVal w s).tokenVal = w.tokenVal ∧
    (dropSurfaceVal w s).shells = w.shells ∧
    (dropSurfaceVal w s).regs = w.regs ∧
    (dropSurfaceVal w s).surfaceHandlers = w.surfaceHandlers ∧
    0 < (dropSurfaceVal w s).tokens s.liveliness ∧
    (dropSurfaceVal v s).natives s.shell_surface =
      (v.natives s.shell_surface).map (fun ns => { ns with data := none }) ∧
    (dropSurfaceVal v s).tokens s.liveliness = 0 := by
  have hnv : ¬ v.tokens s.liveliness > 1 := by omega
  unfold dropSurfaceVal
  rw [if_pos hw, if_neg hnv]
  refine ⟨rfl, rfl, rfl, rfl, rfl, ?_, ?_, ?_⟩
  · simp only [upd_self]; omega
  · simp
  · simp [upd, hv]

/-- C10 witness: with two strong holders the drop leaves everything but
the count untouched; with one, the state block is freed and the token goes
dead. -/
theorem c10_witness :
    1 < wTok2.tokens 0 ∧ wNew.tokens 0 = 1 ∧
    ((dropSurfaceVal wTok2 { liveliness := 0, shell_surface := 0 }).natives =
       wTok2.natives ∧
     (dropSurfaceVal wTok2 { liveliness := 0, shell_surface := 0 }).tokenVal =
       wTok2.tokenVal ∧
     (dropSurfaceVal wTok2 { liveliness := 0, shell_surface := 0 }).shells =
       wTok2.shells ∧
     (dropSurfaceVal wTok2 { liveliness := 0, shell_surface := 0 }).regs =
       wTok2.regs ∧
     (dropSurfaceVal wTok2 { liveliness := 0, shell_surface := 0 }).surfaceHandlers =
       wTok2.surfaceHandlers ∧
     0 < (dropSurfaceVal wTok2 { liveliness := 0, shell_surface := 0 }).tokens 0 ∧
     (dropSurfaceVal wNew { liveliness := 0, shell_surface := 0 }).natives 0 =
       (wNew.natives 0).map (fun ns => { ns with data := none }) ∧
     (dropSurfaceVal wNew { liveliness := 0, shell_surface := 0 }).tokens 0 = 0) :=
  ⟨by decide, by decide,
   c10_drop_not_last_noop_last_frees wTok2 wNew
     { liveliness := 0, shell_surface := 0 } (by decide) (by decide)⟩

/-- A world in which native pointer 0 is already wrapped: its user-data
slot holds the state block of lineage token 0, which has one strong
holder. -/
def wC6 : World :=
  { emptyWorld with
    natives := fun q =>
      if q = 0 then some { data := some { shell := none, handle := 0 }, surface := none }
      else none,
    tokens := fun q => if q = 0 then 1 else 0,
    nextToken := 1 }

/-- C6 counterexample: calling wrap (Surface::new) on native pointer 0,
whose user-data slot is already populated with the lineage of token 0,
raises no error at all — new has no error outcome — and silently installs
a second, fresh lineage (token 1) over the slot, returning a second
wrapper. -/
theorem c6_double_wrap_not_detected :
    (Surface.new wC6 0).2.liveliness = 1 ∧
    (Surface.new wC6 0).2.liveliness ≠ 0 ∧
    ((Surface.new wC6 0).1.natives 0) =
      some { data := some { shell := none, handle := 1 }, surface := none } ∧
    (Surface.new wC6 0).1.tokens 1 = 1 := by
  refine ⟨by decide, by decide, by decide, by decide⟩

/-- C6 as amended: wrap's slot-empty precondition is unchecked.  Calling
wrap on a native pointer whose user-data slot is already populated is not
detected: it silently overwrites the slot with a fresh state block whose
lineage is a new token distinct from the stored one. -/
theorem c6_amended_wrap_overwrites_silently (w : World) (p : Nat)
    (n : NativeSurface) (st : StateBlock)
    (hn : w.natives p = some n) (_hd : n.data = some st)
    (hwf : st.handle < w.nextToken) :
    (Surface.new w p).2.liveliness = w.nextToken ∧
    (Surface.new w p).2.liveliness ≠ st.handle ∧
    ((Surface.new w p).1.natives p) =
      some { n with data := some { shell := none, handle := w.nextToken } } := by
  refine ⟨rfl, ?_, ?_⟩
  · simp [Surface.new]; omega
  · simp [Surface.new, hn]

/-- C6 amended witness: re-wrapping pointer 0 of the already-wrapped world
installs fresh token 1 over the stored token 0 lineage. -/
theorem c6_amended_witness :
    wC6.natives 0 = some { data := some { shell := none, handle := 0 }, surface := none } ∧
    (0 : Nat) < wC6.nextToken ∧
    ((Surface.new wC6 0).2.liveliness = wC6.nextToken ∧
     (Surface.new wC6 0).2.liveliness ≠ 0 ∧
     ((Surface.new wC6 0).1.natives 0) =
       some { data := some { shell := none, handle := wC6.nextToken }, surface := none }) :=
  ⟨by decide, by decide,
   c6_amended_wrap_overwrites_silently wC6 0
     { data := some { shell := none, handle := 0 }, surface := none }
     { shell := none, handle := 0 } (by decide) rfl (by decide)⟩

/-- C1 counterexample: the destroy dispatch computes the handler call, and
the handle it delivers, against the untouched pre-teardown world — the
token is only torn down after the handler returns.  Concretely, in the
world wA (one wrapped resource, handler attached) the destroy notification
delivers handle (ptr 0, token 0) to the destroy handler, and upgrading
exactly that handle in the state the handler runs in succeeds with a live
reference instead of failing with AlreadyDropped, refuting the claim that
the token is flipped to dead before the destroy handler is invoked. -/
theorem c1_upgrade_during_destroy_succeeds :
    (Shell.notify wA 0 (some 7) (.destroy 0)).2 =
      [HandlerCall.destroyed 7 (some 5) { ptr := 0, handle := 0 }] ∧
    (Surface.fromHandle wA { ptr := 0, handle := 0 }).2 =
      .ok { liveliness := 0, shell_surface := 0 } := by
  refine ⟨by decide, by rfl⟩

/-- C1 as amended: the liveliness token goes dead when the destroy
teardown completes, after the destroy handler has returned, not before the
handler is informed.  Provided the dispatch table's Surface is the last
strong holder of the token, every handle upgrade attempted after the
destroy notification has been delivered fails with AlreadyDropped and
leaves the world unchanged; an upgrade during the destroy callback itself
still succeeds. -/
theorem c1_amended_upgrade_after_destroy_fails (w : World) (sid : Nat) (sh : Shell)
    (mgr : Handler) (c : Nat) (n : NativeSurface) (st : StateBlock) (h : HandleV)
    (hsh : w.shells sid = some sh) (hm : sh.handler = some mgr)
    (hn : w.natives sh.surface.shell_surface = some n) (hd : n.data = some st)
    (hst : st.shell = some sid)
    (hcount : w.tokens sh.surface.liveliness = 1)
    (hq : h.handle = sh.surface.liveliness) :
    Surface.fromHandle (Shell.notify w sid (some c) (.destroy sh.surface.shell_surface)).1 h =
      ((Shell.notify w sid (some c) (.destroy sh.surface.shell_surface)).1,
       .error .AlreadyDropped) := by
  have hW : (Shell.notify w sid (some c) (.destroy sh.surface.shell_surface)).1 =
      dropShellBox w sid := by
    simp [Shell.notify, hsh, hm, hn, hd, hst]
  have ht0 : (dropShellBox w sid).tokens h.handle = 0 := by
    simp [dropShellBox, hsh, dropSurfaceVal, hcount, hq, upd]
  rw [hW]
  simp [Surface.fromHandle, ht0]

/-- C1 amended witness: after the destroy notification on the wrapped
resource with an attached handler, upgrading the previously taken handle
(ptr 0, token 0) fails with AlreadyDropped. -/
theorem c1_amended_witness :
    wA.shells 0 = some { surface := { liveliness := 0, shell_surface := 0 },
                         handler := some { mapResult := none } } ∧
    wA.tokens 0 = 1 ∧
    Surface.fromHandle (Shell.notify wA 0 (some 7) (.destroy 0)).1
        { ptr := 0, handle := 0 } =
      ((Shell.notify wA 0 (some 7) (.destroy 0)).1, .error .AlreadyDropped) :=
  ⟨by decide, by decide,
   c1_amended_upgrade_after_destroy_fails wA 0
     { surface := { liveliness := 0, shell_surface := 0 },
       handler := some { mapResult := none } }
     { mapResult := none } 7
     { data := some { shell := some 0, handle := 0 }, surface := some 5 }
     { shell := some 0, handle := 0 }
     { ptr := 0, handle := 0 }
     (by decide) rfl (by decide) rfl rfl (by decide) rfl⟩

/-- C2: evaluation of the code at the failing input.  In the world wB the
resource is wrapped and the dispatch table exists but no handler is
attached.  Firing the native destroy notification performs no teardown at
all: the dispatch returns with the world unchanged and no handler call,
the state block is still present in the user-data slot afterwards, the
token still has its strong holder, and a subsequent upgrade_and_run of the
previously taken handle succeeds and invokes the body — contradicting the
claim that the state block is released and that the upgrade returns
AlreadyDropped with the body never invoked. -/
theorem c2_destroy_without_handler_no_teardown :
    Shell.notify wB 0 (some 7) (.destroy 0) = (wB, []) ∧
    ((wB.natives 0).bind (fun ns => ns.data)) =
      some { shell := some 0, handle := 0 } ∧
    wB.tokens 0 = 1 ∧
    (HandleV.upgradeAndRun wB { ptr := 0, handle := 0 } (fun _ => (42 : Nat))).2 =
      .ok 42 := by
  refine ⟨rfl, by decide, by decide, by rfl⟩

/-- C4: with a handler attached and the compositor context available, one
native destroy notification produces exactly one destroyed handler call;
after the handler call the dispatch table deregisters every one of its
fourteen registration records (the notification list of the native object
becomes empty), the table itself is freed, and a second destroy firing
produces no handler call at all — never more than one destroy callback per
resource lifetime. -/
theorem c4_destroy_once_then_table_freed (w : World) (sid : Nat) (sh : Shell)
    (mgr : Handler) (c c2 : Nat) (n : NativeSurface) (st : StateBlock)
    (hsh : w.shells sid = some sh) (hm : sh.handler = some mgr)
    (hn : w.natives sh.surface.shell_surface = some n) (hd : n.data = some st)
    (hst : st.shell = some sid)
    (hregs : w.regs sh.surface.shell_surface = allListeners) :
    (Shell.notify w sid (some c) (.destroy sh.surface.shell_surface)).2 =
      [HandlerCall.destroyed c (surfaceOf w sh.surface)
         (Surface.weakReference sh.surface)] ∧
    (Shell.notify w sid (some c) (.destroy sh.surface.shell_surface)).1.regs
        sh.surface.shell_surface = [] ∧
    (Shell.notify w sid (some c) (.destroy sh.surface.shell_surface)).1.shells sid =
      none ∧
    (Shell.notify (Shell.notify w sid (some c) (.destroy sh.surface.shell_surface)).1
        sid (some c2) (.destroy sh.surface.shell_surface)).2 = [] := by
  have hW : (Shell.notify w sid (some c) (.destroy sh.surface.shell_surface)).1 =
      dropShellBox w sid := by
    simp [Shell.notify, hsh, hm, hn, hd, hst]
  have hcalls : (Shell.notify w sid (some c) (.destroy sh.surface.shell_surface)).2 =
      [HandlerCall.destroyed c (surfaceOf w sh.surface)
         (Surface.weakReference sh.surface)] := by
    simp [Shell.notify, hsh, hm, hn, hd, hst]
  have hregs' : (dropShellBox w sid).regs sh.surface.shell_surface = [] := by
    simp [dropShellBox, hsh, dropSurfaceVal_regs, hregs, upd, removeListeners_all]
  have hsh' : (dropShellBox w sid).shells sid = none := by
    simp [dropShellBox, hsh, dropSurfaceVal_shells, upd]
  refine ⟨hcalls, ?_, ?_, ?_⟩
  · rw [hW]; exact hregs'
  · rw [hW]; exact hsh'
  · rw [hW, notify_shell_absent (dropShellBox w sid) sid (some c2) _ hsh']

/-- C4 witness: the destroy notification on the wrapped resource with a
handler attached yields exactly one destroyed call, empties the fourteen
registration records, frees the table, and a second destroy yields no
call. -/
theorem c4_witness :
    wA.shells 0 = some { surface := { liveliness := 0, shell_surface := 0 },
                         handler := some { mapResult := none } } ∧
    wA.regs 0 = allListeners ∧
    ((Shell.notify wA 0 (some 7) (.destroy 0)).2 =
       [HandlerCall.destroyed 7 (surfaceOf wA { liveliness := 0, shell_surface := 0 })
          (Surface.weakReference { liveliness := 0, shell_surface := 0 })] ∧
     (Shell.notify wA 0 (some 7) (.destroy 0)).1.regs 0 = [] ∧
     (Shell.notify wA 0 (some 7) (.destroy 0)).1.shells 0 = none ∧
     (Shell.notify (Shell.notify wA 0 (some 7) (.destroy 0)).1 0 (some 8)
        (.destroy 0)).2 = []) :=
  ⟨by decide, by decide,
   c4_destroy_once_then_table_freed wA 0
     { surface := { liveliness := 0, shell_surface := 0 },
       handler := some { mapResult := none } }
     { mapResult := none } 7 8
     { data := some { shell := some 0, handle := 0 }, surface := some 5 }
     { shell := some 0, handle := 0 }
     (by decide) rfl (by decide) rfl rfl (by decide)⟩

/-- A world with two independently wrapped native surfaces (pointers 0
and 1, wayland surfaces 5 and 6) and two dispatch tables: shell 0 whose
handler's on_map returns secondary handler 9, and shell 1 whose on_map
returns nothing. -/
def wC8 : World :=
  let base : World :=
    { emptyWorld with
      natives := fun q =>
        if q = 0 then some { data := none, surface := some 5 }
        else if q = 1 then some { data := none, surface := some 6 }
        else none }
  let r1 := Surface.new base 0
  let r2 := Surface.new r1.1 1
  let r3 := Shell.create r2.1 r1.2 (some { mapResult := some 9 })
  (Shell.create r3.1 r2.2 (some { mapResult := none })).1

/-- C8: when the map event is dispatched and the handler's on_map returns
a secondary handler object, that object is attached as the handler of the
related mapped wayland surface; when on_map returns nothing, the dispatch
leaves the world — in particular every surface handler slot — unchanged,
so the related surface's events keep being dropped until a handler is
attached another way.  In both cases exactly on_map is invoked, with the
resource's weak handle. -/
theorem c8_map_attaches_returned_handler (w : World) (sid1 sid2 : Nat)
    (sh1 sh2 : Shell) (m1 m2 : Handler) (hid c : Nat) (n1 : NativeSurface)
    (sfc : Nat)
    (h1 : w.shells sid1 = some sh1) (hm1 : sh1.handler = some m1)
    (hr1 : m1.mapResult = some hid)
    (hn1 : w.natives sh1.surface.shell_surface = some n1)
    (hs1 : n1.surface = some sfc)
    (h2 : w.shells sid2 = some sh2) (hm2 : sh2.handler = some m2)
    (hr2 : m2.mapResult = none) :
    (Shell.notify w sid1 (some c) .mapE).1.surfaceHandlers sfc = some hid ∧
    (Shell.notify w sid1 (some c) .mapE).2 =
      [HandlerCall.onMap c (surfaceOf w sh1.surface)
         (Surface.weakReference sh1.surface)] ∧
    Shell.notify w sid2 (some c) .mapE =
      (w, [HandlerCall.onMap c (surfaceOf w sh2.surface)
             (Surface.weakReference sh2.surface)]) := by
  refine ⟨?_, ?_, ?_⟩
  · simp [Shell.notify, h1, hm1, hr1, hn1, hs1, upd]
  · simp [Shell.notify, h1, hm1, hr1, hn1, hs1]
  · simp [Shell.notify, h2, hm2, hr2]

/-- C8 witness: mapping shell 0 attaches the returned secondary handler 9
to wayland surface 5; mapping shell 1, whose on_map returns nothing,
leaves the world unchanged; both emit exactly the on_map call. -/
theorem c8_witness :
    wC8.shells 0 = some { surface := { liveliness := 0, shell_surface := 0 },
                          handler := some { mapResult := some 9 } } ∧
    wC8.shells 1 = some { surface := { liveliness := 1, shell_surface := 1 },
                          handler := some { mapResult := none } } ∧
    wC8.natives 0 = some { data := some { shell := some 0, handle := 0 },
                           surface := some 5 } ∧
    ((Shell.notify wC8 0 (some 7) .mapE).1.surfaceHandlers 5 = some 9 ∧
     (Shell.notify wC8 0 (some 7) .mapE).2 =
       [HandlerCall.onMap 7
          (surfaceOf wC8 { liveliness := 0, shell_surface := 0 })
          (Surface.weakReference { liveliness := 0, shell_surface := 0 })] ∧
     Shell.notify wC8 1 (some 7) .mapE =
       (wC8, [HandlerCall.onMap 7
                (surfaceOf wC8 { liveliness := 1, shell_surface := 1 })
                (Surface.weakReference { liveliness := 1, shell_surface := 1 })])) :=
  ⟨by decide, by decide, by decide,
   c8_map_attaches_returned_handler wC8 0 1
     { surface := { liveliness := 0, shell_surface := 0 },
       handler := some { mapResult := some 9 } }
     { surface := { liveliness := 1, shell_surface := 1 },
       handler := some { mapResult := none } }
     { mapResult := some 9 } { mapResult := none } 9 7
     { data := some { shell := some 0, handle := 0 }, surface := some 5 } 5
     (by decide) rfl rfl (by decide) rfl (by decide) rfl rfl⟩

end Wlr
